import Mathlib

/-!
Verification development for the feed-item normalization pipeline of
`rss_reader` (file `rss_reader/components/news.py`, class `News`).

The Python class is shallowly embedded:
  * a raw feed-item fragment (a `bs4.element.Tag`) becomes the structure
    `Item`; its description element is a list of segments (`Seg`),
    capturing the document order of text and inline `<img>` elements that
    BeautifulSoup's `find_all('img')` / `replace_with` / `.text` observe;
  * the network layer (`requests.head`) is an oracle
    `Probe : String → Except Unit (Option String)` — `.error ()` is a
    transport-level exception, `.ok ct` a response whose optional
    `content-type` header is `ct`;
  * the permissive date parser (`dateutil.parser.parse`) is an oracle
    `Parse : String → Option DateTime` — `none` means the parser raises;
  * Python exceptions surface as `Except Err _`; the inductive `Err` also
    carries the error names used by the documentation of the system
    (`malformedItemError`, `cacheCorruptionError`) so that statements can
    compare what the code raises against those names — the embedded code
    itself never produces them;
  * the `self.links` dictionary with keys `0..n-1` in insertion order is a
    `List LinkEntry` (the key of an entry is its list index);
  * the cache (`self.cache.cache_news(self)`) is modelled by returning the
    list of records written during construction alongside the record.
-/

namespace Rss

/-- Naive wall-clock datetime, the result of `dateutil.parser.parse`
(`datetime.datetime`), with only the fields the code consumes. -/
structure DateTime where
  year : Nat
  month : Nat
  day : Nat
  hour : Nat
  minute : Nat
  second : Nat
deriving DecidableEq, Repr

/-- `requests.head` as an oracle: transport exception, or a response whose
optional content-type header is returned. -/
abbrev Probe := String → Except Unit (Option String)

/-- `dateutil.parser.parse` as an oracle; `none` models a parse failure. -/
abbrev Parse := String → Option DateTime

/-- Python exceptions relevant to `News`, plus the error names used by the
system documentation (never raised by the embedded code). -/
inductive Err where
  | attributeError
  | keyError
  | fetchError
  | parserError
  | unboundLocalError
  | malformedItemError
  | cacheCorruptionError
deriving DecidableEq, Repr

/-- An inline `<img>` element of the description.  The code reads the
attributes `url` (probe target), `src` (stored URL) and `alt`
unconditionally; the model therefore carries all three (their absence
would raise `KeyError` in Python, which no claim exercises). -/
structure Img where
  src : String
  url : String
  alt : String
deriving DecidableEq, Repr

/-- One node of the description fragment in document order: either plain
text or an inline image. -/
inductive Seg where
  | text (s : String)
  | img (i : Img)
deriving DecidableEq, Repr

/-- An `<enclosure>` element: `url` is read with `enclosure['url']`
(required), `type` with `.get('type')` (optional). -/
structure Enclosure where
  url : String
  type : Option String
deriving DecidableEq, Repr

/-- A `<media:content>` element, same attribute access as `Enclosure`. -/
structure MediaContent where
  url : String
  type : Option String
deriving DecidableEq, Repr

/-- A raw feed-item fragment.  `title`, `link`, `pubDate`, `published` are
`some` of the tag's text when the child element is present and truthy,
`none` otherwise; `description` is the parsed child list of the
description element. -/
structure Item where
  title : Option String
  link : Option String
  description : Option (List Seg)
  pubDate : Option String
  published : Option String
  enclosures : List Enclosure
  mediaContents : List MediaContent
deriving DecidableEq, Repr

/-- One value of the `self.links` dictionary:
`{'enclosure': _, 'media': _, 'type': _, 'url': _, 'attributes': _}`.
`attributes` is `{'alt': a}` for inline images (modelled `some a`) and
`None` for enclosures and media content (`none`). -/
structure LinkEntry where
  enclosure : Bool
  media : Bool
  type : String
  url : String
  attributes : Option String
deriving DecidableEq, Repr

/-- The fields of a constructed `News` object that the rendering and
caching methods consume.  The live path stores `date` and a links dict
(`links = some _`); the cache path stores no `date` and may store `None`
for `links`. -/
structure News where
  feed_title : String
  title : String
  link : String
  description : Option String
  date : Option DateTime
  formatted_date : String
  links : Option (List LinkEntry)
  to_colorized_format : Bool
deriving DecidableEq, Repr

/-- The flat cached representation (`to_dict` output / `__from_cache`
input).  Each field is `some _` when the key is present in the dict;
`description` and `links` keys can be present with value `None`. -/
structure CachedDict where
  title : Option String
  url : Option String
  description : Option (Option String)
  date : Option String
  links : Option (Option (List LinkEntry))
deriving DecidableEq, Repr

/-! ### Date formatting: `datetime.strftime(date, '%a, %d %b %G %X')`

`%a` / `%b` are the C-locale abbreviated weekday / month names, `%d` the
zero-padded day, `%X` the C-locale time `HH:MM:SS`, and `%G` the ISO-8601
week-based year (the year of the Thursday of the date's ISO week). -/

def isLeap (y : Nat) : Bool :=
  (y % 4 == 0 && y % 100 != 0) || y % 400 == 0

def daysInYear (y : Nat) : Nat :=
  if isLeap y then 366 else 365

/-- Days in the months before month `m` of a common year. -/
def daysBeforeMonthCommon (m : Nat) : Nat :=
  match m with
  | 1 => 0 | 2 => 31 | 3 => 59 | 4 => 90 | 5 => 120 | 6 => 151
  | 7 => 181 | 8 => 212 | 9 => 243 | 10 => 273 | 11 => 304 | _ => 334

/-- Ordinal day of the year (1-based). -/
def dayOfYear (d : DateTime) : Nat :=
  daysBeforeMonthCommon d.month
    + (if isLeap d.year && d.month > 2 then 1 else 0) + d.day

/-- Proleptic-Gregorian day number: day 1 is 0001-01-01 (a Monday). -/
def rataDie (d : DateTime) : Nat :=
  365 * (d.year - 1) + (d.year - 1) / 4 + (d.year - 1) / 400
    - (d.year - 1) / 100 + dayOfYear d

/-- Weekday index: 0 = Sunday, 1 = Monday, …, 6 = Saturday. -/
def weekdayIdx (d : DateTime) : Nat :=
  rataDie d % 7

def weekdayAbbrev (d : DateTime) : String :=
  match weekdayIdx d with
  | 0 => "Sun" | 1 => "Mon" | 2 => "Tue" | 3 => "Wed"
  | 4 => "Thu" | 5 => "Fri" | _ => "Sat"

def monthAbbrev (m : Nat) : String :=
  match m with
  | 1 => "Jan" | 2 => "Feb" | 3 => "Mar" | 4 => "Apr" | 5 => "May"
  | 6 => "Jun" | 7 => "Jul" | 8 => "Aug" | 9 => "Sep" | 10 => "Oct"
  | 11 => "Nov" | _ => "Dec"

/-- ISO weekday: Monday = 1 … Sunday = 7. -/
def isoWeekday (d : DateTime) : Nat :=
  match weekdayIdx d with
  | 0 => 7
  | w => w

/-- The ISO-8601 week-based year (`%G`): the calendar year of the Thursday
of the date's ISO week. -/
def isoWeekYear (d : DateTime) : Nat :=
  if dayOfYear d + 4 ≤ isoWeekday d then d.year - 1
  else if dayOfYear d + 4 - isoWeekday d > daysInYear d.year then d.year + 1
  else d.year

def pad2 (n : Nat) : String :=
  if n < 10 then "0" ++ Nat.repr n else Nat.repr n

def pad4 (n : Nat) : String :=
  if n < 10 then "000" ++ Nat.repr n
  else if n < 100 then "00" ++ Nat.repr n
  else if n < 1000 then "0" ++ Nat.repr n
  else Nat.repr n

/-- `datetime.strftime(date, '%a, %d %b %G %X')` in the C locale. -/
def pyStrftime (d : DateTime) : String :=
  weekdayAbbrev d ++ ", " ++ pad2 d.day ++ " " ++ monthAbbrev d.month
    ++ " " ++ pad4 (isoWeekYear d) ++ " " ++ pad2 d.hour ++ ":"
    ++ pad2 d.minute ++ ":" ++ pad2 d.second

example : pyStrftime ⟨2023, 1, 2, 10, 0, 0⟩ = "Mon, 02 Jan 2023 10:00:00" := by decide

example : pyStrftime ⟨2021, 1, 1, 10, 0, 0⟩ = "Fri, 01 Jan 2020 10:00:00" := by decide

/-! ### `News.__get_content_type` and the inline-image probe -/

/-- `News.__get_content_type(content)`: `requests.head(content['url'])`
(an uncaught transport exception propagates), then
`response.headers.get('content-type')`, falling back to
`content.get('type')`, falling back to `'unknown'`. -/
def getContentType (probe : Probe) (url : String) (declared : Option String) :
    Except Err String :=
  match probe url with
  | .error _ => .error .fetchError
  | .ok contentType =>
    match contentType with
    | some ct => .ok ct
    | none =>
      match declared with
      | some t => .ok t
      | none => .ok "unknown"

/-- The probe performed by `News.__parse_description` for one image:
`requests.head(image['url'])` (uncaught transport exception), then
`response.headers['content-type']` — direct indexing, so a response
without the header raises `KeyError`; there is no declared-type or
`'unknown'` fallback on this path. -/
def probeImage (probe : Probe) (im : Img) : Except Err String :=
  match probe im.url with
  | .error _ => .error .fetchError
  | .ok contentType =>
    match contentType with
    | some ct => .ok ct
    | none => .error .keyError

/-! ### `News.__parse_description` -/

/-- The images of a description fragment in document order
(`document_data.find_all('img')`). -/
def imagesOf (segs : List Seg) : List Img :=
  segs.filterMap fun s =>
    match s with
    | .text _ => none
    | .img im => some im

/-- The replacement token for the image appended at dictionary position
`pos`: the f-string
`f'[image {item_position}{": " + image["alt"] + "] " if image["alt"] else "] "}'`
(note the trailing space after the closing bracket in both branches). -/
def imgToken (pos : Nat) (im : Img) : String :=
  if im.alt ≠ "" then
    "[image " ++ Nat.repr pos ++ ": " ++ im.alt ++ "] "
  else
    "[image " ++ Nat.repr pos ++ "] "

/-- The links-dict entry appended for one inline image:
`{'enclosure': False, 'media': False, 'type': image_type,
'url': image['src'], 'attributes': {'alt': image['alt']}}`. -/
def mkImgEntry (im : Img) (ct : String) : LinkEntry :=
  { enclosure := false, media := false, type := ct,
    url := im.src, attributes := some im.alt }

/-- The loop body of `__parse_description` over `find_all('img')`, probing
each image in document order and collecting the appended entries; the
first probe exception aborts the loop (and the whole constructor). -/
def imgEntries (probe : Probe) : List Img → Except Err (List LinkEntry)
  | [] => .ok []
  | im :: rest =>
    match probeImage probe im with
    | .error e => .error e
    | .ok ct =>
      match imgEntries probe rest with
      | .error e => .error e
      | .ok tail => .ok (mkImgEntry im ct :: tail)

/-- `document_data.text` after every image has been `replace_with`-ed by
its token.  Since `self.links` is empty when `__parse_description` runs
and each image appends exactly one entry, the `len(self.links)` position
captured for an image equals its 0-based rank in document order, which is
threaded here as `k`. -/
def descTextGo : List Seg → Nat → String
  | [], _ => ""
  | .text s :: rest, k => s ++ descTextGo rest k
  | .img im :: rest, k => imgToken k im ++ descTextGo rest (k + 1)

/-- `News.__parse_description`: returns `None` when the description
element is absent (or falsy); otherwise probes every image in document
order, appends their entries and returns the rewritten plain text.  The
second component is the links dictionary built so far. -/
def parseDescription (probe : Probe) :
    Option (List Seg) → Except Err (Option String × List LinkEntry)
  | none => .ok (none, [])
  | some segs =>
    match imgEntries probe (imagesOf segs) with
    | .error e => .error e
    | .ok entries => .ok (some (descTextGo segs 0), entries)

/-! ### `News.__parse_date` -/

/-- `News.__parse_date`: read `pubDate` if present, else `published`;
if neither is present the local variable `date` is unbound
(`UnboundLocalError`); `dateutil.parser.parse` raising is a parse
failure. -/
def parseDateE (parse : Parse) (item : Item) : Except Err DateTime :=
  match item.pubDate with
  | some s =>
    match parse s with
    | some d => .ok d
    | none => .error .parserError
  | none =>
    match item.published with
    | some s =>
      match parse s with
      | some d => .ok d
      | none => .error .parserError
    | none => .error .unboundLocalError

/-! ### `News.__parse_enclosure` and `News.__parse_media_content` -/

/-- The loop of `__parse_enclosure`: for each `<enclosure>` in document
order, resolve the content type and append
`{'enclosure': True, 'media': False, 'type': _, 'url': _, 'attributes': None}`. -/
def encEntries (probe : Probe) : List Enclosure → Except Err (List LinkEntry)
  | [] => .ok []
  | e :: rest =>
    match getContentType probe e.url e.type with
    | .error err => .error err
    | .ok ct =>
      match encEntries probe rest with
      | .error err => .error err
      | .ok tail =>
        .ok ({ enclosure := true, media := false, type := ct,
               url := e.url, attributes := none } :: tail)

/-- The loop of `__parse_media_content`: for each `<media:content>` in
document order, resolve the content type and append
`{'enclosure': False, 'media': True, 'type': _, 'url': _, 'attributes': None}`. -/
def mediaEntries (probe : Probe) : List MediaContent → Except Err (List LinkEntry)
  | [] => .ok []
  | m :: rest =>
    match getContentType probe m.url m.type with
    | .error err => .error err
    | .ok ct =>
      match mediaEntries probe rest with
      | .error err => .error err
      | .ok tail =>
        .ok ({ enclosure := false, media := true, type := ct,
               url := m.url, attributes := none } :: tail)

/-! ### The constructor -/

/-- `self.item.title.text` / `self.item.link.text`: a missing child
element is `None`, whose `.text` raises `AttributeError`. -/
def reqText (tag : Option String) : Except Err String :=
  match tag with
  | some s => .ok s
  | none => .error .attributeError

/-- The live (non-dict) branch of `News.__init__`: title, link,
description, date, formatted date, enclosures, media content, then
`self.cache.cache_news(self)`.  The second component of the result is the
list of records written to the cache store during construction. -/
def newsInit (probe : Probe) (parse : Parse) (feed_title : String)
    (item : Item) (flag : Bool) : Except Err (News × List News) :=
  match reqText item.title with
  | .error e => .error e
  | .ok title =>
    match reqText item.link with
    | .error e => .error e
    | .ok link =>
      match parseDescription probe item.description with
      | .error e => .error e
      | .ok descPair =>
        match parseDateE parse item with
        | .error e => .error e
        | .ok date =>
          match encEntries probe item.enclosures with
          | .error e => .error e
          | .ok encs =>
            match mediaEntries probe item.mediaContents with
            | .error e => .error e
            | .ok meds =>
              let n : News :=
                { feed_title := feed_title, title := title, link := link,
                  description := descPair.1, date := some date,
                  formatted_date := pyStrftime date,
                  links := some (descPair.2 ++ encs ++ meds),
                  to_colorized_format := flag }
              .ok (n, [n])

/-- `News.__from_cache`: each dict access `self.item[key]` raises
`KeyError` when the key is absent; field reads happen in source order
(`links`, `title`, `url`, `description`, `date`).  No cache write is
performed on this path. -/
def fromCache (feed_title : String) (flag : Bool) (d : CachedDict) :
    Except Err (News × List News) :=
  match d.links with
  | none => .error .keyError
  | some links =>
    match d.title with
    | none => .error .keyError
    | some title =>
      match d.url with
      | none => .error .keyError
      | some url =>
        match d.description with
        | none => .error .keyError
        | some description =>
          match d.date with
          | none => .error .keyError
          | some date =>
            .ok ({ feed_title := feed_title, title := title, link := url,
                   description := description, date := none,
                   formatted_date := date, links := links,
                   to_colorized_format := flag }, [])

/-- The constructor argument: a cached dict or a raw fragment
(the `isinstance(self.item, dict)` test). -/
inductive ItemInput where
  | cached (d : CachedDict)
  | raw (i : Item)
deriving DecidableEq, Repr

/-- `News.__init__`: dispatch on `isinstance(self.item, dict)`. -/
def newsNew (probe : Probe) (parse : Parse) (feed_title : String)
    (input : ItemInput) (flag : Bool) : Except Err (News × List News) :=
  match input with
  | .cached d => fromCache feed_title flag d
  | .raw i => newsInit probe parse feed_title i flag

/-! ### `News.to_dict` and rendering -/

/-- Python truthiness of `self.links`: `None` and the empty dict are
falsy. -/
def linksTruthy (links : Option (List LinkEntry)) : Bool :=
  match links with
  | none => false
  | some l => !l.isEmpty

/-- Python truthiness of `self.description`: `None` and the empty string
are falsy. -/
def descTruthy (description : Option String) : Bool :=
  match description with
  | none => false
  | some d => !(d == "")

/-- `News.to_dict`: a flat dict with every key present;
`'links': self.links if self.links else None`. -/
def to_dict (n : News) : CachedDict :=
  { title := some n.title, url := some n.link,
    description := some n.description, date := some n.formatted_date,
    links := some (if linksTruthy n.links then n.links else none) }

/-- `str.rstrip()` character class (Python whitespace). -/
def pyIsSpace (c : Char) : Bool :=
  c == ' ' || c == '\t' || c == '\n' || c == '\r' || c == '\x0b' || c == '\x0c'

/-- Python `str.rstrip()` with no argument. -/
def pyRstrip (s : String) : String :=
  s.dropRightWhile pyIsSpace

/-- `News.colorize_string`: the ANSI code table
`{'cyan': '\x1b[1;36m', 'yellow': '\x1b[1;33m', 'red': '\x1b[1;31m',
'reset': '\x1b[0m'}` (the code only ever looks up these keys). -/
def colorCode (color : String) : String :=
  if color == "cyan" then "\x1b[1;36m"
  else if color == "yellow" then "\x1b[1;33m"
  else if color == "red" then "\x1b[1;31m"
  else if color == "reset" then "\x1b[0m"
  else ""

/-- `News.colorize_string(string, color)`:
`colors[color] + string + colors['reset']`. -/
def colorize (s color : String) : String :=
  colorCode color ++ s ++ "\x1b[0m"

/-- `News.__format_links`: a leading newline, then one line
`[{position}] {link["url"]} ({link["type"]})` per entry in insertion
order (the dict keys are the positions `0..n-1`). -/
def formatLinks (links : List LinkEntry) : String :=
  "\n" ++ String.intercalate "\n"
    (links.enum.map fun pl =>
      "[" ++ Nat.repr pl.1 ++ "] " ++ pl.2.url ++ " (" ++ pl.2.type ++ ")")

/-- `News.__str__`: the colorized or plain f-string, `rstrip()`-ed.
Falsy (`None` or empty) description and links render as the empty
string in their slot. -/
def newsStr (n : News) : String :=
  if n.to_colorized_format then
    pyRstrip
      ("[" ++ colorize n.feed_title "red" ++ "] " ++ colorize n.title "yellow"
        ++ "\n" ++ colorize "Date:" "cyan" ++ " "
        ++ colorize n.formatted_date "yellow"
        ++ "\n" ++ colorize "Link:" "cyan" ++ " " ++ n.link ++ "\n\n"
        ++ (if descTruthy n.description
            then colorize (n.description.getD "") "yellow" else "")
        ++ "\n\n"
        ++ (if linksTruthy n.links
            then colorize "Links:" "cyan" ++ formatLinks (n.links.getD [])
            else ""))
  else
    pyRstrip
      ("[" ++ n.feed_title ++ "] " ++ n.title
        ++ "\n" ++ "Date: " ++ n.formatted_date
        ++ "\n" ++ "Link: " ++ n.link ++ "\n\n"
        ++ (if descTruthy n.description then n.description.getD "" else "")
        ++ "\n\n"
        ++ (if linksTruthy n.links
            then "Links:" ++ formatLinks (n.links.getD [])
            else ""))

/-! ### The renderer contract as the specification words it

Written from the specification's description of the plain form: the
header lines, a blank line, the description if present, a blank line,
and a `Links:` block omitted entirely when the table is empty, with
trailing whitespace trimmed. -/

/-- Plain rendering as specified: the lines
`[feedTitle] title`, `Date: formattedDate`, `Link: url`, a blank line,
the description (if present), a blank line, then `Links:` followed by one
line `[index] url (contentType)` per descriptor (the whole block omitted
when the table is empty), joined by newlines and right-trimmed. -/
def renderPlainSpec (n : News) : String :=
  let table := n.links.getD []
  let descriptorLine := fun (pl : Nat × LinkEntry) =>
    "[" ++ Nat.repr pl.1 ++ "] " ++ pl.2.url ++ " (" ++ pl.2.type ++ ")"
  let linksBlock :=
    if table.isEmpty then ""
    else "Links:" ++ "\n" ++ String.intercalate "\n" (table.enum.map descriptorLine)
  pyRstrip
    (String.intercalate "\n"
      ["[" ++ n.feed_title ++ "] " ++ n.title,
       "Date: " ++ n.formatted_date,
       "Link: " ++ n.link,
       "",
       (match n.description with | some d => d | none => ""),
       "",
       linksBlock])

/-! ### Structural lemmas about the constructor -/

theorem imgEntries_ok (probe : Probe) :
    ∀ (imgs : List Img) (A : List LinkEntry),
      imgEntries probe imgs = .ok A →
      A.length = imgs.length ∧
      (∀ e ∈ A, e.enclosure = false ∧ e.media = false) ∧
      (∀ j, (A.get? j).map LinkEntry.url = (imgs.get? j).map Img.src) := by
  intro imgs
  induction imgs with
  | nil =>
    intro A h
    simp only [imgEntries] at h
    cases h
    simp
  | cons im rest ih =>
    intro A h
    cases hp : probeImage probe im with
    | error e =>
      simp only [imgEntries, hp] at h
      exact Except.noConfusion h
    | ok ct =>
      simp only [imgEntries, hp] at h
      cases hr : imgEntries probe rest with
      | error e =>
        simp only [hr] at h
        exact Except.noConfusion h
      | ok tail =>
        simp only [hr] at h
        cases h
        obtain ⟨hlen, hmem, hget⟩ := ih _ hr
        refine ⟨by simp [hlen], ?_, ?_⟩
        · intro e he
          rcases List.mem_cons.mp he with h1 | h1
          · subst h1; simp [mkImgEntry]
          · exact hmem e h1
        · intro j
          cases j with
          | zero => simp [mkImgEntry]
          | succ j => simpa using hget j

theorem encEntries_ok (probe : Probe) :
    ∀ (encs : List Enclosure) (B : List LinkEntry),
      encEntries probe encs = .ok B →
      B.length = encs.length ∧
      (∀ e ∈ B, e.enclosure = true ∧ e.media = false) ∧
      (∀ j, (B.get? j).map LinkEntry.url = (encs.get? j).map Enclosure.url) := by
  intro encs
  induction encs with
  | nil =>
    intro B h
    simp only [encEntries] at h
    cases h
    simp
  | cons e rest ih =>
    intro B h
    cases hp : getContentType probe e.url e.type with
    | error err =>
      simp only [encEntries, hp] at h
      exact Except.noConfusion h
    | ok ct =>
      simp only [encEntries, hp] at h
      cases hr : encEntries probe rest with
      | error err =>
        simp only [hr] at h
        exact Except.noConfusion h
      | ok tail =>
        simp only [hr] at h
        cases h
        obtain ⟨hlen, hmem, hget⟩ := ih _ hr
        refine ⟨by simp [hlen], ?_, ?_⟩
        · intro x hx
          rcases List.mem_cons.mp hx with h1 | h1
          · subst h1; simp
          · exact hmem x h1
        · intro j
          cases j with
          | zero => simp
          | succ j => simpa using hget j

theorem mediaEntries_ok (probe : Probe) :
    ∀ (meds : List MediaContent) (C : List LinkEntry),
      mediaEntries probe meds = .ok C →
      C.length = meds.length ∧
      (∀ e ∈ C, e.enclosure = false ∧ e.media = true) ∧
      (∀ j, (C.get? j).map LinkEntry.url = (meds.get? j).map MediaContent.url) := by
  intro meds
  induction meds with
  | nil =>
    intro C h
    simp only [mediaEntries] at h
    cases h
    simp
  | cons m rest ih =>
    intro C h
    cases hp : getContentType probe m.url m.type with
    | error err =>
      simp only [mediaEntries, hp] at h
      exact Except.noConfusion h
    | ok ct =>
      simp only [mediaEntries, hp] at h
      cases hr : mediaEntries probe rest with
      | error err =>
        simp only [hr] at h
        exact Except.noConfusion h
      | ok tail =>
        simp only [hr] at h
        cases h
        obtain ⟨hlen, hmem, hget⟩ := ih _ hr
        refine ⟨by simp [hlen], ?_, ?_⟩
        · intro x hx
          rcases List.mem_cons.mp hx with h1 | h1
          · subst h1; simp
          · exact hmem x h1
        · intro j
          cases j with
          | zero => simp
          | succ j => simpa using hget j

/-- A successful `__parse_description` produces exactly the image-probe
entries of the fragment's images (none for an absent description). -/
theorem parseDescription_ok (probe : Probe) (dOpt : Option (List Seg))
    (descPair : Option String × List LinkEntry)
    (h : parseDescription probe dOpt = .ok descPair) :
    imgEntries probe (imagesOf (dOpt.getD [])) = .ok descPair.2 := by
  cases dOpt with
  | none =>
    simp only [parseDescription] at h
    cases h
    simp [imagesOf, imgEntries]
  | some segs =>
    simp only [parseDescription] at h
    cases hr : imgEntries probe (imagesOf segs) with
    | error e =>
      simp only [hr] at h
      exact Except.noConfusion h
    | ok entries =>
      simp only [hr] at h
      cases h
      simpa using hr

/-- Characterization of a successful live construction: every stage
succeeded, and the record collects their results, with the links dict the
concatenation image-entries ++ enclosure-entries ++ media-entries; the
record itself is written to the cache. -/
theorem newsInit_ok (probe : Probe) (parse : Parse) (ft : String)
    (item : Item) (flag : Bool) (n : News) (w : List News)
    (h : newsInit probe parse ft item flag = .ok (n, w)) :
    ∃ title link descPair date encs meds,
      reqText item.title = .ok title ∧
      reqText item.link = .ok link ∧
      parseDescription probe item.description = .ok descPair ∧
      parseDateE parse item = .ok date ∧
      encEntries probe item.enclosures = .ok encs ∧
      mediaEntries probe item.mediaContents = .ok meds ∧
      n = { feed_title := ft, title := title, link := link,
            description := descPair.1, date := some date,
            formatted_date := pyStrftime date,
            links := some (descPair.2 ++ encs ++ meds),
            to_colorized_format := flag } ∧
      w = [n] := by
  cases h1 : reqText item.title with
  | error e => simp only [newsInit, h1] at h; exact Except.noConfusion h
  | ok title =>
  cases h2 : reqText item.link with
  | error e => simp only [newsInit, h1, h2] at h; exact Except.noConfusion h
  | ok link =>
  cases h3 : parseDescription probe item.description with
  | error e => simp only [newsInit, h1, h2, h3] at h; exact Except.noConfusion h
  | ok descPair =>
  cases h4 : parseDateE parse item with
  | error e => simp only [newsInit, h1, h2, h3, h4] at h; exact Except.noConfusion h
  | ok date =>
  cases h5 : encEntries probe item.enclosures with
  | error e => simp only [newsInit, h1, h2, h3, h4, h5] at h; exact Except.noConfusion h
  | ok encs =>
  cases h6 : mediaEntries probe item.mediaContents with
  | error e =>
    simp only [newsInit, h1, h2, h3, h4, h5, h6] at h
    exact Except.noConfusion h
  | ok meds =>
  simp only [newsInit, h1, h2, h3, h4, h5, h6] at h
  cases h
  exact ⟨_, _, _, _, _, _, rfl, rfl, rfl, rfl, rfl, rfl, rfl, rfl⟩

/-! ### Concrete fixtures used by witnesses and counterexamples -/

/-- A network in which every probe succeeds and reports `image/png`. -/
def probePng : Probe := fun _ => .ok (some "image/png")

/-- A network in which every probe raises a transport error. -/
def probeDown : Probe := fun _ => .error ()

/-- A network in which every probe succeeds without a content-type
header. -/
def probeNoHeader : Probe := fun _ => .ok none

/-- A date parser consistent with `dateutil` on
`"Mon, 02 Jan 2023 10:00:00 GMT"`. -/
def parse20230102 : Parse := fun _ => some ⟨2023, 1, 2, 10, 0, 0⟩

/-- A date parser consistent with `dateutil` on
`"Fri, 01 Jan 2021 10:00:00 GMT"`. -/
def parse20210101 : Parse := fun _ => some ⟨2021, 1, 1, 10, 0, 0⟩

/-- The inline image of the specification's worked example:
`<img src='http://y/i.png' alt=''>` (its probe target attribute set to
the same URL). -/
def imgY : Img := ⟨"http://y/i.png", "http://y/i.png", ""⟩

/-- A fragment with one inline image, one enclosure and one
`media:content` element. -/
def itemFull : Item :=
  { title := some "A", link := some "http://x",
    description := some [.text "hi ", .img imgY],
    pubDate := some "Mon, 02 Jan 2023 10:00:00 GMT", published := none,
    enclosures := [⟨"http://e/a.mp3", some "audio/mpeg"⟩],
    mediaContents := [⟨"http://m/v.mp4", none⟩] }

/-- The record `itemFull` normalizes to under `probePng` /
`parse20230102`. -/
def newsFull : News :=
  { feed_title := "F", title := "A", link := "http://x",
    description := some "hi [image 0] ",
    date := some ⟨2023, 1, 2, 10, 0, 0⟩,
    formatted_date := "Mon, 02 Jan 2023 10:00:00",
    links := some
      [⟨false, false, "image/png", "http://y/i.png", some ""⟩,
       ⟨true, false, "image/png", "http://e/a.mp3", none⟩,
       ⟨false, true, "image/png", "http://m/v.mp4", none⟩],
    to_colorized_format := false }

/-! ### C1 -/

/-- The link-table layout claimed for a live-normalized record: the table
is the concatenation of an inline-image block, an enclosure block and a
media block, each of the length of and in the document order of its
source elements. -/
def linkTableShape (item : Item) (n : News) : Prop :=
  ∃ A B C : List LinkEntry,
    n.links = some (A ++ B ++ C) ∧
    A.length = (imagesOf (item.description.getD [])).length ∧
    B.length = item.enclosures.length ∧
    C.length = item.mediaContents.length ∧
    (∀ e ∈ A, e.enclosure = false ∧ e.media = false) ∧
    (∀ e ∈ B, e.enclosure = true ∧ e.media = false) ∧
    (∀ e ∈ C, e.enclosure = false ∧ e.media = true) ∧
    (∀ j, (A.get? j).map LinkEntry.url
        = ((imagesOf (item.description.getD [])).get? j).map Img.src) ∧
    (∀ j, (B.get? j).map LinkEntry.url
        = (item.enclosures.get? j).map Enclosure.url) ∧
    (∀ j, (C.get? j).map LinkEntry.url
        = (item.mediaContents.get? j).map MediaContent.url)

/-- C1: live normalization of a fragment with N inline images, M
enclosures and K media-content elements produces a link table of exactly
N+M+K entries — indices 0..N-1 the inline images in document order,
N..N+M-1 the enclosures in document order, N+M..N+M+K-1 the
media-content elements in document order. -/
theorem c1_linktable_order (probe : Probe) (parse : Parse) (ft : String)
    (item : Item) (flag : Bool) (n : News) (w : List News)
    (h : newsInit probe parse ft item flag = .ok (n, w)) :
    linkTableShape item n := by
  obtain ⟨title, link, descPair, date, encs, meds, h1, h2, h3, h4, h5, h6, hn, hw⟩ :=
    newsInit_ok probe parse ft item flag n w h
  have hImg := imgEntries_ok probe _ _ (parseDescription_ok probe _ _ h3)
  have hEnc := encEntries_ok probe _ _ h5
  have hMed := mediaEntries_ok probe _ _ h6
  refine ⟨descPair.2, encs, meds, ?_, hImg.1, hEnc.1, hMed.1,
    hImg.2.1, hEnc.2.1, hMed.2.1, hImg.2.2, hEnc.2.2, hMed.2.2⟩
  rw [hn]

/-- Witness for C1 at `itemFull`. -/
theorem c1_linktable_order_witness : linkTableShape itemFull newsFull :=
  c1_linktable_order probePng parse20230102 "F" itemFull false newsFull
    [newsFull] rfl

/-! ### C2 -/

/-- The record the cache path rebuilds from `to_dict n`: identical to `n`
except that no raw `date` is stored and a falsy links dict comes back as
`None`. -/
def cacheResult (n : News) : News :=
  { n with date := none,
           links := if linksTruthy n.links then n.links else none }

/-- `__from_cache` applied to `to_dict` output always succeeds and
rebuilds `cacheResult`. -/
theorem roundTrip_fromCache (n : News) :
    fromCache n.feed_title n.to_colorized_format (to_dict n) =
      .ok (cacheResult n, []) := rfl

/-- The rebuilt record renders byte-identically, in whichever mode `n`
carries. -/
theorem roundTrip_render (n : News) : newsStr (cacheResult n) = newsStr n := by
  unfold cacheResult
  cases hnl : n.links with
  | none => cases hfl : n.to_colorized_format <;> simp [newsStr, hfl, hnl, linksTruthy]
  | some l =>
    cases hE : l.isEmpty <;> cases hfl : n.to_colorized_format <;>
      simp [newsStr, hfl, hnl, linksTruthy, hE]

/-- C2: rebuilding a record from the cached representation of a live
normalization (same feed title, same colorization flag) succeeds and
renders byte-identically to the live record, in both plain and colorized
modes (the flag is universally quantified). -/
theorem c2_cache_roundtrip (probe : Probe) (parse : Parse) (ft : String)
    (item : Item) (flag : Bool) (n : News) (w : List News)
    (h : newsNew probe parse ft (.raw item) flag = .ok (n, w)) :
    newsNew probe parse ft (.cached (to_dict n)) flag = .ok (cacheResult n, []) ∧
    newsStr (cacheResult n) = newsStr n := by
  have hInit : newsInit probe parse ft item flag = .ok (n, w) := h
  obtain ⟨title, link, descPair, date, encs, meds, _, _, _, _, _, _, hn, _⟩ :=
    newsInit_ok probe parse ft item flag n w hInit
  have hft : n.feed_title = ft := by rw [hn]
  have hfl : n.to_colorized_format = flag := by rw [hn]
  constructor
  · show fromCache ft flag (to_dict n) = .ok (cacheResult n, [])
    rw [← hft, ← hfl]
    exact roundTrip_fromCache n
  · exact roundTrip_render n

/-- Witness for C2 at `itemFull`. -/
theorem c2_cache_roundtrip_witness :
    newsNew probePng parse20230102 "F" (.cached (to_dict newsFull)) false =
      .ok (cacheResult newsFull, []) ∧
    newsStr (cacheResult newsFull) = newsStr newsFull :=
  c2_cache_roundtrip probePng parse20230102 "F" itemFull false newsFull
    [newsFull] rfl

/-! ### C10 -/

/-- The cache path performs no write. -/
theorem fromCache_writes (ft : String) (flag : Bool) (d : CachedDict)
    (n : News) (w : List News) (h : fromCache ft flag d = .ok (n, w)) :
    w = [] := by
  unfold fromCache at h
  split at h
  · exact Except.noConfusion h
  · split at h
    · exact Except.noConfusion h
    · split at h
      · exact Except.noConfusion h
      · split at h
        · exact Except.noConfusion h
        · split at h
          · exact Except.noConfusion h
          · cases h; rfl

/-- C10: a successful live construction writes exactly the freshly built
record to the cache store as part of construction, while a successful
cache-path construction writes nothing. -/
theorem c10_cache_write_effect (probe : Probe) (parse : Parse)
    (ft : String) (flag : Bool) :
    (∀ item n w, newsNew probe parse ft (.raw item) flag = .ok (n, w) → w = [n]) ∧
    (∀ d n w, newsNew probe parse ft (.cached d) flag = .ok (n, w) → w = []) := by
  constructor
  · intro item n w h
    obtain ⟨_, _, _, _, _, _, _, _, _, _, _, _, _, hw⟩ :=
      newsInit_ok probe parse ft item flag n w h
    exact hw
  · intro d n w h
    exact fromCache_writes ft flag d n w h

/-- Witness for C10: the live path at `itemFull` writes `[newsFull]`, the
cached path writes nothing. -/
theorem c10_cache_write_effect_witness :
    [newsFull] = [newsFull] ∧ ([] : List News) = [] :=
  ⟨(c10_cache_write_effect probePng parse20230102 "F" false).1 itemFull
      newsFull [newsFull] rfl,
   (c10_cache_write_effect probePng parse20230102 "F" false).2
      (to_dict newsFull) (cacheResult newsFull) [] rfl⟩

/-! ### C3 -/

/-- C3 counterexample: with a failing probe and a declared type present,
content-type resolution does not return the declared type — the
transport error escapes. -/
theorem c3_counterexample :
    getContentType probeDown "http://e/a.mp3" (some "audio/mpeg") =
      .error .fetchError ∧
    (Except.error Err.fetchError : Except Err String) ≠ .ok "audio/mpeg" :=
  ⟨rfl, fun hEq => Except.noConfusion hEq⟩

/-- C3 (amended): resolution returns the network-reported header when the
probe succeeds and supplies one (overriding any declared type); returns
the declared type when the probe succeeds without the header and a
declared type is present; returns `"unknown"` when the probe succeeds
without the header and no type is declared; a transport failure of the
probe escapes as an error instead of falling back.  Inline images bypass
this resolution entirely: their probe indexes the header directly,
raising when it is absent, with no declared-type or `"unknown"`
fallback. -/
theorem c3_content_type_resolution (probe : Probe) (url : String)
    (declared : Option String) :
    (∀ ct, probe url = .ok (some ct) →
      getContentType probe url declared = .ok ct) ∧
    (probe url = .ok none →
      getContentType probe url declared = .ok (declared.getD "unknown")) ∧
    (probe url = .error () →
      getContentType probe url declared = .error .fetchError) ∧
    (∀ im : Img, im.url = url →
      (∀ ct, probe url = .ok (some ct) → probeImage probe im = .ok ct) ∧
      (probe url = .ok none → probeImage probe im = .error .keyError) ∧
      (probe url = .error () → probeImage probe im = .error .fetchError)) := by
  refine ⟨?_, ?_, ?_, ?_⟩
  · intro ct hp
    simp [getContentType, hp]
  · intro hp
    cases declared <;> simp [getContentType, hp, Option.getD]
  · intro hp
    simp [getContentType, hp]
  · intro im him
    refine ⟨?_, ?_, ?_⟩
    · intro ct hp
      simp [probeImage, him, hp]
    · intro hp
      simp [probeImage, him, hp]
    · intro hp
      simp [probeImage, him, hp]

/-- Witness for C3 (amended): a headerless probe falls back to the
declared type. -/
theorem c3_content_type_resolution_witness :
    getContentType probeNoHeader "http://e/a.mp3" (some "audio/mpeg") =
      .ok ((some "audio/mpeg").getD "unknown") :=
  (c3_content_type_resolution probeNoHeader "http://e/a.mp3"
    (some "audio/mpeg")).2.1 rfl

/-! ### C4 -/

/-- C4 counterexample: with every probe raising a transport error, the
normalization of `itemFull` aborts with the fetch error instead of
degrading the content type; the error propagates out of the item. -/
theorem c4_counterexample :
    newsInit probeDown parse20230102 "F" itemFull false =
      .error .fetchError ∧
    (Except.error Err.fetchError : Except Err (News × List News)) ≠
      .ok (newsFull, [newsFull]) :=
  ⟨rfl, fun hEq => Except.noConfusion hEq⟩

theorem imgEntries_probe_ok (probe : Probe) :
    ∀ (imgs : List Img) (A : List LinkEntry),
      imgEntries probe imgs = .ok A →
      ∀ im ∈ imgs, ∃ ct, probe im.url = .ok (some ct) := by
  intro imgs
  induction imgs with
  | nil =>
    intro A _ im him
    exact absurd him (List.not_mem_nil im)
  | cons hd rest ih =>
    intro A h im him
    cases hp : probeImage probe hd with
    | error e =>
      simp only [imgEntries, hp] at h
      exact Except.noConfusion h
    | ok ct =>
      simp only [imgEntries, hp] at h
      cases hr : imgEntries probe rest with
      | error e =>
        simp only [hr] at h
        exact Except.noConfusion h
      | ok tail =>
        rcases List.mem_cons.mp him with h1 | h1
        · subst h1
          cases hpu : probe im.url with
          | error e => simp [probeImage, hpu] at hp
          | ok cth =>
            cases cth with
            | none => simp [probeImage, hpu] at hp
            | some cth => exact ⟨cth, rfl⟩
        · exact ih _ hr im h1

theorem getContentType_probe_ok (probe : Probe) (url : String)
    (declared : Option String) (ct : String)
    (h : getContentType probe url declared = .ok ct) :
    ∃ r, probe url = .ok r := by
  cases hp : probe url with
  | error e => simp [getContentType, hp] at h
  | ok r => exact ⟨r, rfl⟩

theorem encEntries_probe_ok (probe : Probe) :
    ∀ (encs : List Enclosure) (B : List LinkEntry),
      encEntries probe encs = .ok B →
      ∀ e ∈ encs, ∃ r, probe e.url = .ok r := by
  intro encs
  induction encs with
  | nil =>
    intro B _ e he
    exact absurd he (List.not_mem_nil e)
  | cons hd rest ih =>
    intro B h e he
    cases hp : getContentType probe hd.url hd.type with
    | error err =>
      simp only [encEntries, hp] at h
      exact Except.noConfusion h
    | ok ct =>
      simp only [encEntries, hp] at h
      cases hr : encEntries probe rest with
      | error err =>
        simp only [hr] at h
        exact Except.noConfusion h
      | ok tail =>
        rcases List.mem_cons.mp he with h1 | h1
        · subst h1
          exact getContentType_probe_ok probe e.url e.type ct hp
        · exact ih _ hr e h1

theorem mediaEntries_probe_ok (probe : Probe) :
    ∀ (meds : List MediaContent) (C : List LinkEntry),
      mediaEntries probe meds = .ok C →
      ∀ m ∈ meds, ∃ r, probe m.url = .ok r := by
  intro meds
  induction meds with
  | nil =>
    intro C _ m hm
    exact absurd hm (List.not_mem_nil m)
  | cons hd rest ih =>
    intro C h m hm
    cases hp : getContentType probe hd.url hd.type with
    | error err =>
      simp only [mediaEntries, hp] at h
      exact Except.noConfusion h
    | ok ct =>
      simp only [mediaEntries, hp] at h
      cases hr : mediaEntries probe rest with
      | error err =>
        simp only [hr] at h
        exact Except.noConfusion h
      | ok tail =>
        rcases List.mem_cons.mp hm with h1 | h1
        · subst h1
          exact getContentType_probe_ok probe m.url m.type ct hp
        · exact ih _ hr m h1

/-- C4 (amended): a transport failure during a content-type probe is not
absorbed — a live normalization can only succeed when every probed media
reference reached the network without a transport error (inline images
moreover need the header present); together with the counterexample, a
failing probe aborts the item with the uncaught fetch error. -/
theorem c4_fetch_not_absorbed (probe : Probe) (parse : Parse) (ft : String)
    (item : Item) (flag : Bool) (n : News) (w : List News)
    (h : newsInit probe parse ft item flag = .ok (n, w)) :
    (∀ im ∈ imagesOf (item.description.getD []),
        ∃ ct, probe im.url = .ok (some ct)) ∧
    (∀ e ∈ item.enclosures, ∃ r, probe e.url = .ok r) ∧
    (∀ m ∈ item.mediaContents, ∃ r, probe m.url = .ok r) := by
  obtain ⟨title, link, descPair, date, encs, meds, _, _, h3, _, h5, h6, _, _⟩ :=
    newsInit_ok probe parse ft item flag n w h
  exact ⟨imgEntries_probe_ok probe _ _ (parseDescription_ok probe _ _ h3),
         encEntries_probe_ok probe _ _ h5,
         mediaEntries_probe_ok probe _ _ h6⟩

/-- Witness for C4 (amended) at `itemFull`. -/
theorem c4_fetch_not_absorbed_witness :
    (∀ im ∈ imagesOf (itemFull.description.getD []),
        ∃ ct, probePng im.url = .ok (some ct)) ∧
    (∀ e ∈ itemFull.enclosures, ∃ r, probePng e.url = .ok r) ∧
    (∀ m ∈ itemFull.mediaContents, ∃ r, probePng m.url = .ok r) :=
  c4_fetch_not_absorbed probePng parse20230102 "F" itemFull false newsFull
    [newsFull] rfl

/-! ### C5 -/

/-- A fragment missing both its title and its link element. -/
def itemNoTitleLink : Item :=
  { title := none, link := none, description := none, pubDate := none,
    published := none, enclosures := [], mediaContents := [] }

/-- C5 counterexample: a fragment missing both title and link fails with
the attribute error of `None.text`, which is not the
`MalformedItemError` the claim names. -/
theorem c5_counterexample :
    newsInit probePng parse20230102 "F" itemNoTitleLink false =
      .error .attributeError ∧
    Err.attributeError ≠ Err.malformedItemError :=
  ⟨rfl, by decide⟩

/-- C5 (amended): a fragment missing its title element or its link
element makes live normalization fail — producing no record — but with
`AttributeError` (from `None.text`), not a dedicated
`MalformedItemError`, which the code never defines. -/
theorem c5_missing_title_or_link (probe : Probe) (parse : Parse)
    (ft : String) (item : Item) (flag : Bool)
    (h : item.title = none ∨ item.link = none) :
    newsInit probe parse ft item flag = .error .attributeError := by
  rcases h with h | h
  · simp [newsInit, reqText, h]
  · cases ht : item.title with
    | none => simp [newsInit, reqText, ht]
    | some t => simp [newsInit, reqText, ht, h]

/-- Witness for C5 (amended) at `itemNoTitleLink`. -/
theorem c5_missing_title_or_link_witness :
    newsInit probePng parse20230102 "F" itemNoTitleLink false =
      .error .attributeError :=
  c5_missing_title_or_link probePng parse20230102 "F" itemNoTitleLink false
    (Or.inl rfl)

/-! ### C9 -/

/-- A cached representation missing the `links` key. -/
def dictNoLinks : CachedDict :=
  { title := some "A", url := some "http://x", description := some none,
    date := some "Mon, 02 Jan 2023 10:00:00", links := none }

/-- C9 counterexample: a cached dict missing a key fails with the
dictionary `KeyError`, which is not the `CacheCorruptionError` the claim
names. -/
theorem c9_counterexample :
    fromCache "F" false dictNoLinks = .error .keyError ∧
    Err.keyError ≠ Err.cacheCorruptionError :=
  ⟨rfl, by decide⟩

/-- C9 (amended): a cached representation missing any of the expected
keys (`links`, `title`, `url`, `description`, `date`) makes the cache
path fail — producing no record — but with `KeyError`, not a dedicated
`CacheCorruptionError`, which the code never defines. -/
theorem c9_missing_key (ft : String) (flag : Bool) (d : CachedDict)
    (h : d.links = none ∨ d.title = none ∨ d.url = none ∨
         d.description = none ∨ d.date = none) :
    fromCache ft flag d = .error .keyError := by
  cases h1 : d.links with
  | none => simp [fromCache, h1]
  | some links =>
    cases h2 : d.title with
    | none => simp [fromCache, h1, h2]
    | some title =>
      cases h3 : d.url with
      | none => simp [fromCache, h1, h2, h3]
      | some url =>
        cases h4 : d.description with
        | none => simp [fromCache, h1, h2, h3, h4]
        | some description =>
          cases h5 : d.date with
          | none => simp [fromCache, h1, h2, h3, h4, h5]
          | some date => simp_all

/-- Witness for C9 (amended) at `dictNoLinks`. -/
theorem c9_missing_key_witness :
    fromCache "F" false dictNoLinks = .error .keyError :=
  c9_missing_key "F" false dictNoLinks (Or.inl rfl)

/-! ### C6 -/

/-- C6 counterexample: an image with alt text `"cat"` is replaced by the
token `"[image 0: cat] "` — with a trailing space — and the whole
description text ends in it; the claim's exact token (no trailing space)
differs. -/
theorem c6_counterexample :
    parseDescription probePng (some [Seg.text "hi ", Seg.img ⟨"s", "u", "cat"⟩]) =
      .ok (some "hi [image 0: cat] ",
           [⟨false, false, "image/png", "s", some "cat"⟩]) ∧
    "hi [image 0: cat] " ≠ "hi [image 0: cat]" :=
  ⟨rfl, by decide⟩

/-- C6 (amended): the inline image appended at table index `i` is
replaced, at its original document position, by exactly
`"[image i: {alt}] "` when it has alt text and `"[image i] "` when it has
none — each token carrying one trailing space after the closing
bracket. -/
theorem c6_image_token (k : Nat) (im : Img) (rest : List Seg) (s : String) :
    (im.alt = "" → imgToken k im = "[image " ++ Nat.repr k ++ "] ") ∧
    (im.alt ≠ "" →
      imgToken k im = "[image " ++ Nat.repr k ++ ": " ++ im.alt ++ "] ") ∧
    descTextGo (Seg.text s :: rest) k = s ++ descTextGo rest k ∧
    descTextGo (Seg.img im :: rest) k = imgToken k im ++ descTextGo rest (k + 1) := by
  refine ⟨?_, ?_, rfl, rfl⟩
  · intro h
    simp [imgToken, h]
  · intro h
    simp [imgToken, h]

/-- Witness for C6 (amended): the example of the claim, alt text `"cat"`
at index 2. -/
theorem c6_image_token_witness :
    imgToken 2 ⟨"s", "u", "cat"⟩ = "[image " ++ Nat.repr 2 ++ ": " ++ "cat" ++ "] " :=
  (c6_image_token 2 ⟨"s", "u", "cat"⟩ [] "hi ").2.1 (by decide)

/-! ### C7 -/

/-- A fragment whose publication date lies in ISO week 53 of the previous
year. -/
def itemBoundary : Item :=
  { title := some "A", link := some "http://x", description := none,
    pubDate := some "Fri, 01 Jan 2021 10:00:00 GMT", published := none,
    enclosures := [], mediaContents := [] }

/-- C7 counterexample: pubDate `"Fri, 01 Jan 2021 10:00:00 GMT"` (parsed
to 2021-01-01, an ISO-week-53-of-2020 date) is formatted with year 2020,
not the calendar year 2021 the claim requires for every parseable
date. -/
theorem c7_counterexample :
    (newsInit probePng parse20210101 "F" itemBoundary false).map
        (fun p => p.1.formatted_date) =
      .ok "Fri, 01 Jan 2020 10:00:00" ∧
    "Fri, 01 Jan 2020 10:00:00" ≠ "Fri, 01 Jan 2021 10:00:00" :=
  ⟨rfl, by decide⟩

/-- C7 (amended): the record's formatted date renders the parsed date as
abbreviated weekday, zero-padded day, abbreviated month, the 4-digit
ISO-8601 week-based year (`%G`), then `HH:MM:SS`.  The week-based year
equals the calendar year away from year boundaries — the claim's example
`Mon, 02 Jan 2023 10:00:00 GMT` formats to
`"Mon, 02 Jan 2023 10:00:00"` — but differs near them: 2021-01-01
formats with year 2020. -/
theorem c7_formatted_date (probe : Probe) (parse : Parse) (ft : String)
    (item : Item) (flag : Bool) (n : News) (w : List News)
    (h : newsInit probe parse ft item flag = .ok (n, w)) :
    (∃ d, parseDateE parse item = .ok d ∧
        n.formatted_date =
          weekdayAbbrev d ++ ", " ++ pad2 d.day ++ " " ++ monthAbbrev d.month
            ++ " " ++ pad4 (isoWeekYear d) ++ " " ++ pad2 d.hour ++ ":"
            ++ pad2 d.minute ++ ":" ++ pad2 d.second) ∧
    pyStrftime ⟨2023, 1, 2, 10, 0, 0⟩ = "Mon, 02 Jan 2023 10:00:00" ∧
    pyStrftime ⟨2021, 1, 1, 10, 0, 0⟩ = "Fri, 01 Jan 2020 10:00:00" := by
  obtain ⟨title, link, descPair, date, encs, meds, _, _, _, h4, _, _, hn, _⟩ :=
    newsInit_ok probe parse ft item flag n w h
  refine ⟨⟨date, h4, ?_⟩, by decide, by decide⟩
  rw [hn]
  rfl

/-- Witness for C7 (amended) at `itemFull`. -/
theorem c7_formatted_date_witness :
    (∃ d, parseDateE parse20230102 itemFull = .ok d ∧
        newsFull.formatted_date =
          weekdayAbbrev d ++ ", " ++ pad2 d.day ++ " " ++ monthAbbrev d.month
            ++ " " ++ pad4 (isoWeekYear d) ++ " " ++ pad2 d.hour ++ ":"
            ++ pad2 d.minute ++ ":" ++ pad2 d.second) ∧
    pyStrftime ⟨2023, 1, 2, 10, 0, 0⟩ = "Mon, 02 Jan 2023 10:00:00" ∧
    pyStrftime ⟨2021, 1, 1, 10, 0, 0⟩ = "Fri, 01 Jan 2020 10:00:00" :=
  c7_formatted_date probePng parse20230102 "F" itemFull false newsFull
    [newsFull] rfl

/-! ### C8 -/

/-- The plain f-string concatenation equals the specification's
newline-joined line list. -/
theorem plain_concat (ft t fd lk D L : String) :
    "[" ++ ft ++ "] " ++ t ++ "\n" ++ "Date: " ++ fd ++ "\n" ++ "Link: " ++ lk
      ++ "\n\n" ++ D ++ "\n\n" ++ L =
    String.intercalate "\n"
      ["[" ++ ft ++ "] " ++ t, "Date: " ++ fd, "Link: " ++ lk, "", D, "", L] := by
  show _ = ("[" ++ ft ++ "] " ++ t) ++ "\n" ++ ("Date: " ++ fd) ++ "\n"
      ++ ("Link: " ++ lk) ++ "\n" ++ "" ++ "\n" ++ D ++ "\n" ++ "" ++ "\n" ++ L
  rw [show ("\n\n" : String) = "\n" ++ "\n" from rfl]
  simp only [String.append_assoc, String.append_empty, String.empty_append]

/-- The description slot renders identically whether computed by the
code's truthiness test or by the specification's presence test. -/
theorem desc_slot_eq (o : Option String) :
    (if descTruthy o then o.getD "" else "") =
      (match o with | some d => d | none => "") := by
  cases o with
  | none => rfl
  | some d => by_cases h : d = "" <;> simp [descTruthy, h]

/-- The links slot of the code equals the specification's block:
`Links:` then one line per descriptor, omitted when the table is
empty. -/
theorem links_slot_eq (links : Option (List LinkEntry)) :
    (if linksTruthy links then "Links:" ++ formatLinks (links.getD []) else "") =
      (if (links.getD []).isEmpty then ""
       else "Links:" ++ "\n" ++ String.intercalate "\n"
          ((links.getD []).enum.map fun pl =>
            "[" ++ Nat.repr pl.1 ++ "] " ++ pl.2.url ++ " (" ++ pl.2.type ++ ")")) := by
  cases links with
  | none => rfl
  | some l =>
    cases hE : l.isEmpty <;>
      (simp only [linksTruthy, hE, Bool.not_false, Bool.not_true,
        Option.getD_some, if_true, if_false, formatLinks,
        String.append_assoc, ite_true, ite_false]; rfl)

/-- C8: the plain rendering of a record is exactly the specified line
sequence — `[feedTitle] title`, `Date: formattedDate`, `Link: url`,
blank line, description if present, blank line, `Links:` with one
`[index] url (contentType)` line per descriptor (omitted entirely for an
empty table) — right-trimmed. -/
theorem c8_plain_rendering (n : News) (h : n.to_colorized_format = false) :
    newsStr n = renderPlainSpec n := by
  unfold newsStr renderPlainSpec
  rw [h]
  simp only [Bool.false_eq_true, if_false]
  rw [plain_concat, desc_slot_eq, links_slot_eq]

/-- Witness for C8 at `newsFull`. -/
theorem c8_plain_rendering_witness : newsStr newsFull = renderPlainSpec newsFull :=
  c8_plain_rendering newsFull rfl

end Rss
